import Mathlib

/-!
# The DFL FPGA ioctl interface (`libraries/plugins/xfpga/fpga-dfl.h`)

A shallow embedding of the user-space API header of the Device Feature List
FPGA driver: its numeric constants, its ioctl command identifiers and the
layout of its request structures, followed by the properties of the
resource manager that sits behind the interface.
-/

namespace FpgaDfl

/-! ## Numeric constants of the header -/

def DFL_FPGA_API_VERSION : Nat := 0

def DFL_FPGA_MAGIC : Nat := 0xB6

def DFL_FPGA_BASE : Nat := 0
def DFL_PORT_BASE : Nat := 0x40
def DFL_FME_BASE : Nat := 0x80
def DFL_CXL_CACHE_BASE : Nat := 0xA0
def DFL_PCI_SVA_BASE : Nat := 0xf8

/-- Region is readable. -/
def DFL_PORT_REGION_READ : Nat := 1 <<< 0
/-- Region is writable. -/
def DFL_PORT_REGION_WRITE : Nat := 1 <<< 1
/-- Can be mmaped to userspace. -/
def DFL_PORT_REGION_MMAP : Nat := 1 <<< 2

/-- AFU region index. -/
def DFL_PORT_REGION_INDEX_AFU : Nat := 0
/-- Signal Tap region index. -/
def DFL_PORT_REGION_INDEX_STP : Nat := 1

/-- Readable from device. -/
def DFL_DMA_MAP_FLAG_READ : Nat := 1 <<< 0
/-- Writable from device. -/
def DFL_DMA_MAP_FLAG_WRITE : Nat := 1 <<< 1

/-- The kernel macro `BIT(n)`. -/
def BIT (n : Nat) : Nat := 1 <<< n

def DFL_CXL_CACHE_REGION_READ : Nat := BIT 0
def DFL_CXL_CACHE_REGION_WRITE : Nat := BIT 1
def DFL_CXL_CACHE_REGION_MMAP : Nat := BIT 2

def DFL_ARRAY_MAX_SIZE : Nat := 0x10

/-! ## C types and structure layout -/

/-- The C types that occur in the header: the fixed-width kernel integers,
`int`, fixed-length arrays and the flexible array member `t name[]`. -/
inductive CType where
  | u32 : CType
  | s32 : CType
  | u64 : CType
  | int : CType
  | array : CType → Nat → CType
  | flex : CType → CType
  deriving DecidableEq, Repr

/-- The two ABIs the header is compiled for. They differ in the alignment of
64-bit integers: 8 bytes on a 64-bit ABI, 4 bytes on the 32-bit x86 ABI. -/
inductive ABI where
  | abi64 : ABI
  | abi32 : ABI
  deriving DecidableEq, Repr

/-- The value of `sizeof` for a type; a flexible array member adds nothing to
the size of the structure that ends with it. -/
def CType.size : CType → Nat
  | .u32 => 4
  | .s32 => 4
  | .u64 => 8
  | .int => 4
  | .array t n => n * t.size
  | .flex _ => 0

/-- The alignment requirement of a type under an ABI. -/
def CType.align (abi : ABI) : CType → Nat
  | .u32 => 4
  | .s32 => 4
  | .u64 => match abi with
    | .abi64 => 8
    | .abi32 => 4
  | .int => 4
  | .array t _ => t.align abi
  | .flex t => t.align abi

/-- The natural alignment of a type: the size of its scalar element. -/
def CType.naturalAlign : CType → Nat
  | .u32 => 4
  | .s32 => 4
  | .u64 => 8
  | .int => 4
  | .array t _ => t.naturalAlign
  | .flex t => t.naturalAlign

/-- One member of a structure, in declaration order. -/
structure Field where
  name : String
  type : CType
  deriving DecidableEq, Repr

/-- A structure declaration: its tag and its members in declaration order. -/
structure Struct where
  tag : String
  fields : List Field
  deriving DecidableEq, Repr

/-- Round `n` up to the next multiple of `a`. -/
def alignUp (n a : Nat) : Nat := (n + a - 1) / a * a

/-- Offsets the compiler gives the members, starting at offset `cur`: each
member goes to the first offset not below the end of the previous member that
satisfies its alignment. -/
def layoutFrom (abi : ABI) : Nat → List Field → List Nat
  | _, [] => []
  | cur, f :: fs =>
    let off := alignUp cur (f.type.align abi)
    off :: layoutFrom abi (off + f.type.size) fs

/-- End of the last member when the members are laid out from `cur`. -/
def endFrom (abi : ABI) : Nat → List Field → Nat
  | cur, [] => cur
  | cur, f :: fs => endFrom abi (alignUp cur (f.type.align abi) + f.type.size) fs

/-- Offsets (`offsetof`) of the members of a structure under an ABI. -/
def Struct.offsets (abi : ABI) (s : Struct) : List Nat := layoutFrom abi 0 s.fields

/-- Alignment of a structure: the largest alignment among its members. -/
def Struct.align (abi : ABI) (s : Struct) : Nat :=
  (s.fields.map fun f => f.type.align abi).foldl max 1

/-- The value of `sizeof` for a structure: the end of the last member rounded
up to the alignment of the structure. -/
def Struct.sizeof (abi : ABI) (s : Struct) : Nat :=
  alignUp (endFrom abi 0 s.fields) (s.align abi)

/-- Offsets obtained without any padding: every member starts at the sum of
the sizes of the members declared before it. -/
def packedFrom : Nat → List Field → List Nat
  | _, [] => []
  | cur, f :: fs => cur :: packedFrom (cur + f.type.size) fs

def Struct.packedOffsets (s : Struct) : List Nat := packedFrom 0 s.fields

/-- Sum of the sizes of the members. -/
def Struct.packedSize (s : Struct) : Nat := (s.fields.map fun f => f.type.size).sum

/-- Largest natural alignment among the members. -/
def Struct.naturalAlign (s : Struct) : Nat :=
  (s.fields.map fun f => f.type.naturalAlign).foldl max 1

/-- Offset of the member called `n`, if the structure has one. -/
def Struct.offsetOf (abi : ABI) (s : Struct) (n : String) : Option Nat :=
  ((s.fields.map Field.name).zip (s.offsets abi)).lookup n

/-! ## The request structures -/

def dfl_fpga_port_info : Struct :=
  { tag := "dfl_fpga_port_info"
    fields := [⟨"argsz", .u32⟩, ⟨"flags", .u32⟩, ⟨"num_regions", .u32⟩, ⟨"num_umsgs", .u32⟩] }

def dfl_fpga_port_region_info : Struct :=
  { tag := "dfl_fpga_port_region_info"
    fields := [⟨"argsz", .u32⟩, ⟨"flags", .u32⟩, ⟨"index", .u32⟩, ⟨"padding", .u32⟩,
      ⟨"size", .u64⟩, ⟨"offset", .u64⟩] }

def dfl_fpga_port_dma_map : Struct :=
  { tag := "dfl_fpga_port_dma_map"
    fields := [⟨"argsz", .u32⟩, ⟨"flags", .u32⟩, ⟨"user_addr", .u64⟩, ⟨"length", .u64⟩,
      ⟨"iova", .u64⟩] }

def dfl_fpga_port_dma_unmap : Struct :=
  { tag := "dfl_fpga_port_dma_unmap"
    fields := [⟨"argsz", .u32⟩, ⟨"flags", .u32⟩, ⟨"iova", .u64⟩] }

def dfl_fpga_irq_set : Struct :=
  { tag := "dfl_fpga_irq_set"
    fields := [⟨"start", .u32⟩, ⟨"count", .u32⟩, ⟨"evtfds", .flex .s32⟩] }

def dfl_fpga_fme_port_pr : Struct :=
  { tag := "dfl_fpga_fme_port_pr"
    fields := [⟨"argsz", .u32⟩, ⟨"flags", .u32⟩, ⟨"port_id", .u32⟩, ⟨"buffer_size", .u32⟩,
      ⟨"buffer_address", .u64⟩] }

def dfl_cxl_cache_region_info : Struct :=
  { tag := "dfl_cxl_cache_region_info"
    fields := [⟨"argsz", .u32⟩, ⟨"flags", .u32⟩, ⟨"size", .u64⟩, ⟨"offset", .u64⟩] }

def dfl_cxl_cache_buffer_map : Struct :=
  { tag := "dfl_cxl_cache_buffer_map"
    fields := [⟨"argsz", .u32⟩, ⟨"flags", .u32⟩, ⟨"user_addr", .u64⟩, ⟨"length", .u64⟩,
      ⟨"csr_array", .array .u64 DFL_ARRAY_MAX_SIZE⟩] }

def dfl_cxl_cache_buffer_unmap : Struct :=
  { tag := "dfl_cxl_cache_buffer_unmap"
    fields := [⟨"argsz", .u32⟩, ⟨"flags", .u32⟩, ⟨"user_addr", .u64⟩, ⟨"length", .u64⟩,
      ⟨"csr_array", .array .u64 DFL_ARRAY_MAX_SIZE⟩] }

/-- Every structure the header declares, in declaration order. -/
def requestStructs : List Struct :=
  [dfl_fpga_port_info, dfl_fpga_port_region_info, dfl_fpga_port_dma_map,
   dfl_fpga_port_dma_unmap, dfl_fpga_irq_set, dfl_fpga_fme_port_pr,
   dfl_cxl_cache_region_info, dfl_cxl_cache_buffer_map, dfl_cxl_cache_buffer_unmap]

/-! ## ioctl command identifiers -/

/-- Direction bits of an ioctl code. -/
def _IOC_NONE : Nat := 0
def _IOC_WRITE : Nat := 1
def _IOC_READ : Nat := 2

/-- An ioctl command identifier as the header writes it: the arguments of the
`_IO`, `_IOR` or `_IOW` invocation that defines it. -/
structure Ioctl where
  dir : Nat
  type : Nat
  nr : Nat
  size : Nat
  deriving DecidableEq, Repr

/-- Modelled from the spec: the macro `_IOC` of `linux/ioctl.h`, which the
header includes and which is not part of the sources; the standard encoding
`(dir << 30) | (size << 16) | (type << 8) | nr`. -/
def Ioctl.code (c : Ioctl) : Nat :=
  (c.dir <<< 30) ||| (c.size <<< 16) ||| (c.type <<< 8) ||| c.nr

/-- The macro `_IO(type, nr)`: no argument is transferred. -/
def _IO (type nr : Nat) : Ioctl := ⟨_IOC_NONE, type, nr, 0⟩

/-- The macro `_IOR(type, nr, T)`, given the value of `sizeof(T)`. -/
def _IOR (type nr size : Nat) : Ioctl := ⟨_IOC_READ, type, nr, size⟩

/-- The macro `_IOW(type, nr, T)`, given the value of `sizeof(T)`. -/
def _IOW (type nr size : Nat) : Ioctl := ⟨_IOC_WRITE, type, nr, size⟩

/-- The value of `sizeof(struct dfl_fpga_irq_set)`. -/
def sizeof_irq_set : Nat := dfl_fpga_irq_set.sizeof .abi64

/-! Common ioctls for both FME and AFU file descriptors. -/

def DFL_FPGA_GET_API_VERSION : Ioctl := _IO DFL_FPGA_MAGIC (DFL_FPGA_BASE + 0)
def DFL_FPGA_CHECK_EXTENSION : Ioctl := _IO DFL_FPGA_MAGIC (DFL_FPGA_BASE + 1)

/-! ioctls for the AFU file descriptor. -/

def DFL_FPGA_PORT_RESET : Ioctl := _IO DFL_FPGA_MAGIC (DFL_PORT_BASE + 0)
def DFL_FPGA_PORT_GET_INFO : Ioctl := _IO DFL_FPGA_MAGIC (DFL_PORT_BASE + 1)
def DFL_FPGA_PORT_GET_REGION_INFO : Ioctl := _IO DFL_FPGA_MAGIC (DFL_PORT_BASE + 2)
def DFL_FPGA_PORT_DMA_MAP : Ioctl := _IO DFL_FPGA_MAGIC (DFL_PORT_BASE + 3)
def DFL_FPGA_PORT_DMA_UNMAP : Ioctl := _IO DFL_FPGA_MAGIC (DFL_PORT_BASE + 4)
def DFL_FPGA_PORT_ERR_GET_IRQ_NUM : Ioctl :=
  _IOR DFL_FPGA_MAGIC (DFL_PORT_BASE + 5) CType.u32.size
def DFL_FPGA_PORT_ERR_SET_IRQ : Ioctl :=
  _IOW DFL_FPGA_MAGIC (DFL_PORT_BASE + 6) sizeof_irq_set
def DFL_FPGA_PORT_UINT_GET_IRQ_NUM : Ioctl :=
  _IOR DFL_FPGA_MAGIC (DFL_PORT_BASE + 7) CType.u32.size
def DFL_FPGA_PORT_UINT_SET_IRQ : Ioctl :=
  _IOW DFL_FPGA_MAGIC (DFL_PORT_BASE + 8) sizeof_irq_set

/-! ioctls for the FME file descriptor. -/

def DFL_FPGA_FME_PORT_PR : Ioctl := _IO DFL_FPGA_MAGIC (DFL_FME_BASE + 0)
def DFL_FPGA_FME_PORT_RELEASE : Ioctl :=
  _IOW DFL_FPGA_MAGIC (DFL_FME_BASE + 1) CType.int.size
def DFL_FPGA_FME_PORT_ASSIGN : Ioctl :=
  _IOW DFL_FPGA_MAGIC (DFL_FME_BASE + 2) CType.int.size
def DFL_FPGA_FME_ERR_GET_IRQ_NUM : Ioctl :=
  _IOR DFL_FPGA_MAGIC (DFL_FME_BASE + 3) CType.u32.size
def DFL_FPGA_FME_ERR_SET_IRQ : Ioctl :=
  _IOW DFL_FPGA_MAGIC (DFL_FME_BASE + 4) sizeof_irq_set

/-! Shared virtual addressing. -/

def DFL_PCI_SVA_BIND_DEV : Ioctl := _IO DFL_FPGA_MAGIC (DFL_PCI_SVA_BASE + 0)
def DFL_PCI_SVA_UNBIND_DEV : Ioctl := _IO DFL_FPGA_MAGIC (DFL_PCI_SVA_BASE + 1)

/-! CXL cache. -/

def DFL_CXL_CACHE_GET_REGION_INFO : Ioctl := _IO DFL_FPGA_MAGIC (DFL_CXL_CACHE_BASE + 0)
def DFL_CXL_CACHE_NUMA_BUFFER_MAP : Ioctl := _IO DFL_FPGA_MAGIC (DFL_CXL_CACHE_BASE + 1)
def DFL_CXL_CACHE_NUMA_BUFFER_UNMAP : Ioctl := _IO DFL_FPGA_MAGIC (DFL_CXL_CACHE_BASE + 2)

/-- The command identifiers the header defines, in definition order. -/
def allIoctls : List Ioctl :=
  [DFL_FPGA_GET_API_VERSION, DFL_FPGA_CHECK_EXTENSION,
   DFL_FPGA_PORT_RESET, DFL_FPGA_PORT_GET_INFO, DFL_FPGA_PORT_GET_REGION_INFO,
   DFL_FPGA_PORT_DMA_MAP, DFL_FPGA_PORT_DMA_UNMAP, DFL_FPGA_PORT_ERR_GET_IRQ_NUM,
   DFL_FPGA_PORT_ERR_SET_IRQ, DFL_FPGA_PORT_UINT_GET_IRQ_NUM, DFL_FPGA_PORT_UINT_SET_IRQ,
   DFL_FPGA_FME_PORT_PR, DFL_FPGA_FME_PORT_RELEASE, DFL_FPGA_FME_PORT_ASSIGN,
   DFL_FPGA_FME_ERR_GET_IRQ_NUM, DFL_FPGA_FME_ERR_SET_IRQ,
   DFL_PCI_SVA_BIND_DEV, DFL_PCI_SVA_UNBIND_DEV,
   DFL_CXL_CACHE_GET_REGION_INFO, DFL_CXL_CACHE_NUMA_BUFFER_MAP,
   DFL_CXL_CACHE_NUMA_BUFFER_UNMAP]

/-! ## The resource manager behind the interface

The header declares the requests; the mapping table and the interrupt router
that serve them live in the driver. They are modelled here from their
specification. -/

/-- Modelled from the spec: the error kinds of the resource manager, whose
implementation is not part of the sources. -/
inductive Error where
  | InvalidAlignment | InvalidLength | InvalidState | OutOfRange | NotFound
  | AlreadyMapped | AlreadyBound | NotBound | ResourceExhausted | TooLarge
  | Busy | HardwareFault | InvalidTarget
  deriving DecidableEq, Repr

/-- Modelled from the spec: one entry of the mapping table, whose implementation
is not part of the sources: (user virtual address, length, direction) with the
IO virtual address it was given. -/
structure DmaMapping where
  user_addr : Nat
  length : Nat
  read : Bool
  write : Bool
  iova : Nat
  deriving DecidableEq, Repr

/-- Whether `flags` has the bit `flag` set, the C test `flags & flag`. -/
def hasFlag (flags flag : Nat) : Bool := flags &&& flag != 0

/-- Modelled from the spec: the direction a `flags` word of
`struct dfl_fpga_port_dma_map` asks for, which the driver (not part of the
sources) derives. Setting only one of `DFL_DMA_MAP_FLAG_READ` or
`DFL_DMA_MAP_FLAG_WRITE` limits the device to reads or to writes; setting
neither permits both. The result is (read permitted, write permitted). -/
def direction (flags : Nat) : Bool × Bool :=
  let r := hasFlag flags DFL_DMA_MAP_FLAG_READ
  let w := hasFlag flags DFL_DMA_MAP_FLAG_WRITE
  if !r && !w then (true, true) else (r, w)

/-- Whether the range `[user_addr, user_addr + length)` meets that of an
existing mapping. -/
def DmaMapping.overlaps (m : DmaMapping) (user_addr length : Nat) : Bool :=
  decide (user_addr < m.user_addr + m.length) && decide (m.user_addr < user_addr + length)

/-- Modelled from the spec: the operation `Map` of the mapping table, whose
implementation is not part of the sources. It fails with `InvalidAlignment` if
`user_addr` or `length` is not page-aligned, `InvalidLength` if `length` is 0,
`ResourceExhausted` if address-space allocation fails, `AlreadyMapped` if the
range overlaps an existing mapping; otherwise it records the mapping and
returns its IO virtual address. The page size and the address-space allocator
`alloc` belong to the platform and are parameters; the allocator sees the table
and the request with its direction already resolved. The result is the outcome
together with the table after the call. -/
def Map (pageSize : Nat)
    (alloc : List DmaMapping → Nat → Nat → Bool × Bool → Option Nat)
    (table : List DmaMapping) (user_addr length flags : Nat) :
    Except Error Nat × List DmaMapping :=
  let dir := direction flags
  if user_addr % pageSize ≠ 0 ∨ length % pageSize ≠ 0 then
    (.error .InvalidAlignment, table)
  else if length = 0 then
    (.error .InvalidLength, table)
  else
    match alloc table user_addr length dir with
    | none => (.error .ResourceExhausted, table)
    | some iova =>
      if table.any (fun m => m.overlaps user_addr length) then
        (.error .AlreadyMapped, table)
      else
        (.ok iova, ⟨user_addr, length, dir.1, dir.2, iova⟩ :: table)

/-- Modelled from the spec: the interrupt router, whose implementation is not
part of the sources: for every interrupt line index below the IRQ count of the
feature, the notification target bound to it, if any. -/
structure InterruptRouter where
  bindings : List (Option Int)
  deriving DecidableEq, Repr

/-- Modelled from the spec: the query `GetIrqCount` of the interrupt router. -/
def InterruptRouter.GetIrqCount (r : InterruptRouter) : Nat := r.bindings.length

/-- Modelled from the spec: what one entry of `evtfds` asks for; a negative
value unbinds the line, any other value binds the line to it. -/
def bindingOf (evtfd : Int) : Option Int := if evtfd < 0 then none else some evtfd

/-- Replace the bindings of the lines `start`, `start + 1`, ... by what the
entries of `evtfds` ask for, leaving every other line as it is. -/
def applyRange : List (Option Int) → Nat → List Int → List (Option Int)
  | [], _, _ => []
  | b :: bs, start + 1, evtfds => b :: applyRange bs start evtfds
  | b :: bs, 0, [] => b :: bs
  | _ :: bs, 0, e :: evtfds => bindingOf e :: applyRange bs 0 evtfds

/-- Modelled from the spec: the operation `SetRange` of the interrupt router,
whose implementation is not part of the sources. `evtfds` holds the `count`
entries of the request. It fails with `OutOfRange` if `start + count` exceeds
the IRQ count and with `InvalidTarget` if a non-negative target is not a live
notification channel (`live`, decided by the file table of the caller); otherwise
the whole range is applied. The result is the outcome together with the router
after the call. -/
def SetRange (live : Int → Bool) (r : InterruptRouter) (start : Nat) (evtfds : List Int) :
    Except Error Unit × InterruptRouter :=
  if r.GetIrqCount < start + evtfds.length then
    (.error .OutOfRange, r)
  else if evtfds.any (fun e => decide (0 ≤ e) && !live e) then
    (.error .InvalidTarget, r)
  else
    (.ok (), ⟨applyRange r.bindings start evtfds⟩)

/-! ## Reading the permission flags of a region -/

/-- The `flags` word of `struct dfl_fpga_port_region_info` for a region with
the given permissions. -/
def regionFlags (read write mmap : Bool) : Nat :=
  (if read then DFL_PORT_REGION_READ else 0) |||
  (if write then DFL_PORT_REGION_WRITE else 0) |||
  (if mmap then DFL_PORT_REGION_MMAP else 0)

/-- Whether a natural number has exactly one bit set. -/
def singleBit (n : Nat) : Bool := n != 0 && n &&& (n - 1) == 0

/-! ## What the members of the CXL cache buffer request carry -/

/-- The inputs of the operation `MapBuffer`. -/
inductive MapBufferInput where
  | user_addr | length | numa_node
  deriving DecidableEq, Repr

/-- The input of `MapBuffer` a member of `struct dfl_cxl_cache_buffer_map`
carries, after the documentation of the structure: `user_addr` is the user
virtual address and `length` the length of the mapping; `argsz` is the
structure length, `flags` the flags and `csr_array` the array of region
address offsets. -/
def carriedInput (f : Field) : Option MapBufferInput :=
  if f.name = "user_addr" then some .user_addr
  else if f.name = "length" then some .length
  else if f.name = "numa_node" then some .numa_node
  else none

/-! ## Concrete inputs used to exercise the definitions -/

/-- An allocator that hands out one 64 KiB slot per mapping already present. -/
def sampleAlloc : List DmaMapping → Nat → Nat → Bool × Bool → Option Nat :=
  fun table _ _ _ => some (0x10000 * (table.length + 1))

/-- A router with three lines, the last two of them bound. -/
def sampleRouter : InterruptRouter := ⟨[none, some 3, some 4]⟩

/-- A file table in which only descriptor 5 is a live notification channel. -/
def sampleLive : Int → Bool := fun e => e == 5

/-! ## Auxiliary facts -/

theorem length_applyRange (bs : List (Option Int)) (start : Nat) (evtfds : List Int) :
    (applyRange bs start evtfds).length = bs.length := by
  induction bs generalizing start evtfds with
  | nil => simp [applyRange]
  | cons b bs ih =>
    cases start with
    | succ s => simp [applyRange, ih]
    | zero =>
      cases evtfds with
      | nil => simp [applyRange]
      | cons e es => simp [applyRange, ih]

theorem getElem?_applyRange_inside (bs : List (Option Int)) (start : Nat) (evtfds : List Int)
    (hfit : start + evtfds.length ≤ bs.length) (i : Nat) (hi : i < evtfds.length) :
    (applyRange bs start evtfds)[start + i]? = some (bindingOf evtfds[i]) := by
  induction bs generalizing start evtfds i with
  | nil =>
    simp only [List.length_nil] at hfit
    omega
  | cons b bs ih =>
    cases start with
    | succ s =>
      have h1 : s + evtfds.length ≤ bs.length := by simp at hfit; omega
      have h2 : s + 1 + i = (s + i) + 1 := by omega
      simp only [applyRange, h2, List.getElem?_cons_succ]
      exact ih s evtfds h1 i hi
    | zero =>
      cases evtfds with
      | nil => simp at hi
      | cons e es =>
        cases i with
        | zero => simp [applyRange]
        | succ k =>
          have h1 : 0 + es.length ≤ bs.length := by simp at hfit ⊢; omega
          have hk : k < es.length := by simpa using hi
          have := ih 0 es h1 k hk
          simp only [Nat.zero_add] at this
          simp only [applyRange, Nat.zero_add, List.getElem?_cons_succ, List.getElem_cons_succ]
          exact this

theorem getElem?_applyRange_outside (bs : List (Option Int)) (start : Nat) (evtfds : List Int)
    (j : Nat) (hj : j < start ∨ start + evtfds.length ≤ j) :
    (applyRange bs start evtfds)[j]? = bs[j]? := by
  induction bs generalizing start evtfds j with
  | nil => simp [applyRange]
  | cons b bs ih =>
    cases start with
    | succ s =>
      cases j with
      | zero => simp [applyRange]
      | succ k =>
        simp only [applyRange, List.getElem?_cons_succ]
        exact ih s evtfds k (by omega)
    | zero =>
      cases evtfds with
      | nil => simp [applyRange]
      | cons e es =>
        cases j with
        | zero => simp at hj
        | succ k =>
          simp only [applyRange, List.getElem?_cons_succ]
          exact ih 0 es k (by simp at hj ⊢; omega)

theorem direction_zero : direction 0 = (true, true) := by decide

theorem direction_both :
    direction (DFL_DMA_MAP_FLAG_READ ||| DFL_DMA_MAP_FLAG_WRITE) = (true, true) := by decide

/-- The command number of an ioctl code is its low byte. -/
theorem code_mod_256 (c : Ioctl) (h : c.nr < 256) : c.code % 256 = c.nr := by
  unfold Ioctl.code
  apply Nat.eq_of_testBit_eq
  intro i
  have e : (256 : Nat) = 2 ^ 8 := by norm_num
  rw [e, Nat.testBit_mod_two_pow]
  by_cases hi : i < 8
  · simp [Nat.testBit_shiftLeft, hi]
    intro h1; omega
  · have : c.nr.testBit i = false := by
      apply Nat.testBit_lt_two_pow
      calc c.nr < 2 ^ 8 := by omega
        _ ≤ 2 ^ i := Nat.pow_le_pow_right (by norm_num) (by omega)
    simp [hi, this]

/-- The command numbers of the header are below 256. -/
theorem nr_lt_256 : ∀ c ∈ allIoctls, c.nr < 256 := by decide

/-- No two command identifiers of the header have the same command number. -/
theorem nr_injective : ∀ c₁ ∈ allIoctls, ∀ c₂ ∈ allIoctls, c₁.nr = c₂.nr → c₁ = c₂ := by
  decide

/-- A successful `SetRange` keeps the number of lines and leaves every line
outside the range as it was. -/
theorem SetRange_outside (live : Int → Bool) (r : InterruptRouter) (start : Nat)
    (evtfds : List Int) (j : Nat) (hj : j < start ∨ start + evtfds.length ≤ j) :
    (SetRange live r start evtfds).2.GetIrqCount = r.GetIrqCount ∧
    (SetRange live r start evtfds).2.bindings[j]? = r.bindings[j]? := by
  unfold SetRange
  split_ifs
  · exact ⟨rfl, rfl⟩
  · exact ⟨rfl, rfl⟩
  · exact ⟨length_applyRange _ _ _, getElem?_applyRange_outside _ _ _ j hj⟩

/-! ## Request structures start with their length, except the interrupt set -/

/-- C1 as stated fails: not every request structure starts with the 32-bit
member `argsz`; `struct dfl_fpga_irq_set` starts with `start`. -/
theorem first_field_argsz_counterexample :
    dfl_fpga_irq_set ∈ requestStructs ∧
    dfl_fpga_irq_set.fields.head? = some ⟨"start", .u32⟩ ∧
    ¬ ∀ s ∈ requestStructs, s.fields.head? = some ⟨"argsz", .u32⟩ := by
  decide

/-- C1 (amended): every request structure other than `struct dfl_fpga_irq_set`
has the 32-bit member `argsz` as its first member, at byte offset 0 under
either ABI; `struct dfl_fpga_irq_set` has no member `argsz` and starts with
the 32-bit member `start`. -/
theorem first_field_argsz (abi : ABI) (s : Struct) (hs : s ∈ requestStructs) :
    (s ≠ dfl_fpga_irq_set →
      s.fields.head? = some ⟨"argsz", .u32⟩ ∧ s.offsetOf abi "argsz" = some 0) ∧
    (s = dfl_fpga_irq_set →
      s.fields.head? = some ⟨"start", .u32⟩ ∧ s.offsetOf abi "start" = some 0 ∧
      s.offsetOf abi "argsz" = none) := by
  revert s
  cases abi <;> decide

/-- Witness of C1 (amended) at `struct dfl_fpga_port_dma_map` and at
`struct dfl_fpga_irq_set`. -/
theorem first_field_argsz_witness :
    (dfl_fpga_port_dma_map.fields.head? = some ⟨"argsz", .u32⟩ ∧
      dfl_fpga_port_dma_map.offsetOf .abi64 "argsz" = some 0) ∧
    (dfl_fpga_irq_set.fields.head? = some ⟨"start", .u32⟩ ∧
      dfl_fpga_irq_set.offsetOf .abi32 "start" = some 0 ∧
      dfl_fpga_irq_set.offsetOf .abi32 "argsz" = none) :=
  ⟨(first_field_argsz .abi64 dfl_fpga_port_dma_map (by decide)).1 (by decide),
   (first_field_argsz .abi32 dfl_fpga_irq_set (by decide)).2 rfl⟩

/-! ## DMA mapping -/

/-- C2: for every table, address and length, `Map` with `flags = 0` returns
the same outcome and the same table as `Map` with
`DFL_DMA_MAP_FLAG_READ | DFL_DMA_MAP_FLAG_WRITE` (which is 3), and when it
succeeds the mapping it adds permits both device reads and device writes. -/
theorem Map_flags_zero (pageSize : Nat)
    (alloc : List DmaMapping → Nat → Nat → Bool × Bool → Option Nat)
    (table : List DmaMapping) (user_addr length : Nat) :
    DFL_DMA_MAP_FLAG_READ ||| DFL_DMA_MAP_FLAG_WRITE = 3 ∧
    Map pageSize alloc table user_addr length 0 =
      Map pageSize alloc table user_addr length (DFL_DMA_MAP_FLAG_READ ||| DFL_DMA_MAP_FLAG_WRITE) ∧
    ∀ iova, (Map pageSize alloc table user_addr length 0).1 = .ok iova →
      (Map pageSize alloc table user_addr length 0).2 =
        ⟨user_addr, length, true, true, iova⟩ :: table := by
  refine ⟨by decide, ?_, ?_⟩
  · simp only [Map, direction_zero, direction_both]
  · intro iova h
    revert h
    unfold Map
    rw [direction_zero]
    by_cases h1 : user_addr % pageSize ≠ 0 ∨ length % pageSize ≠ 0
    · rw [if_pos h1]
      intro h
      cases h
    · rw [if_neg h1]
      by_cases h2 : length = 0
      · rw [if_pos h2]
        intro h
        cases h
      · rw [if_neg h2]
        cases alloc table user_addr length (true, true) with
        | none =>
          intro h
          cases h
        | some v =>
          dsimp only
          by_cases h3 : (table.any fun m => m.overlaps user_addr length) = true
          · rw [if_pos h3]
            intro h
            cases h
          · rw [if_neg h3]
            intro h
            cases h
            rfl

/-- Witness of C2: on the empty table a page-aligned request with `flags = 0`
succeeds and records a mapping that permits reads and writes. -/
theorem Map_flags_zero_witness :
    (Map 4096 sampleAlloc [] 0x1000 0x1000 0).1 = .ok 0x10000 ∧
    (Map 4096 sampleAlloc [] 0x1000 0x1000 0).2 =
      [⟨0x1000, 0x1000, true, true, 0x10000⟩] ∧
    Map 4096 sampleAlloc [] 0x1000 0x1000 0 = Map 4096 sampleAlloc [] 0x1000 0x1000 3 :=
  ⟨rfl, (Map_flags_zero 4096 sampleAlloc [] 0x1000 0x1000).2.2 0x10000 rfl,
   (Map_flags_zero 4096 sampleAlloc [] 0x1000 0x1000).2.1⟩

/-- C3: when `user_addr` or `length` is not a multiple of the page size, `Map`
fails with `InvalidAlignment` and the table after the call is the table before
it. -/
theorem Map_unaligned (pageSize : Nat)
    (alloc : List DmaMapping → Nat → Nat → Bool × Bool → Option Nat)
    (table : List DmaMapping) (user_addr length flags : Nat)
    (h : ¬ pageSize ∣ user_addr ∨ ¬ pageSize ∣ length) :
    Map pageSize alloc table user_addr length flags = (.error .InvalidAlignment, table) := by
  have h1 : user_addr % pageSize ≠ 0 ∨ length % pageSize ≠ 0 := by
    rcases h with h | h
    · exact Or.inl fun e => h (Nat.dvd_of_mod_eq_zero e)
    · exact Or.inr fun e => h (Nat.dvd_of_mod_eq_zero e)
  simp only [Map, if_pos h1]

/-- Witness of C3: address `0x1001` is not a multiple of the page size 4096. -/
theorem Map_unaligned_witness :
    (¬ 4096 ∣ 0x1001 ∨ ¬ 4096 ∣ 0x1000) ∧
    Map 4096 sampleAlloc [⟨0x8000, 0x1000, true, false, 0x10000⟩] 0x1001 0x1000 1 =
      (.error .InvalidAlignment, [⟨0x8000, 0x1000, true, false, 0x10000⟩]) :=
  ⟨by decide, Map_unaligned 4096 sampleAlloc _ 0x1001 0x1000 1 (by decide)⟩

/-! ## Interrupt routing -/

/-- C4: a `SetRange` request in which `start + count` exceeds the IRQ count or
some non-negative target is not a live channel fails and leaves the router as
it was; every other request succeeds, and afterwards line `start + i` is
unbound if `evtfds[i]` is negative and bound to `evtfds[i]` otherwise. -/
theorem SetRange_atomic (live : Int → Bool) (r : InterruptRouter) (start : Nat)
    (evtfds : List Int) :
    ((r.GetIrqCount < start + evtfds.length ∨ ∃ e ∈ evtfds, 0 ≤ e ∧ live e = false) →
      (∃ err, (SetRange live r start evtfds).1 = .error err) ∧
      (SetRange live r start evtfds).2 = r) ∧
    (¬ (r.GetIrqCount < start + evtfds.length ∨ ∃ e ∈ evtfds, 0 ≤ e ∧ live e = false) →
      (SetRange live r start evtfds).1 = .ok () ∧
      ∀ (i : Nat) (hi : i < evtfds.length),
        (SetRange live r start evtfds).2.bindings[start + i]? =
          some (if evtfds[i] < 0 then none else some evtfds[i])) := by
  have hany : (evtfds.any fun e => decide (0 ≤ e) && !live e) = true ↔
      ∃ e ∈ evtfds, 0 ≤ e ∧ live e = false := by
    simp [List.any_eq_true]
  constructor
  · intro h
    unfold SetRange
    by_cases h1 : r.GetIrqCount < start + evtfds.length
    · rw [if_pos h1]
      exact ⟨⟨_, rfl⟩, rfl⟩
    · have h2 := hany.mpr (h.resolve_left h1)
      rw [if_neg h1, if_pos h2]
      exact ⟨⟨_, rfl⟩, rfl⟩
  · intro h
    have h1 : ¬ r.GetIrqCount < start + evtfds.length := fun c => h (Or.inl c)
    have h2 : ¬ (evtfds.any fun e => decide (0 ≤ e) && !live e) = true :=
      fun c => h (Or.inr (hany.mp c))
    unfold SetRange
    rw [if_neg h1, if_neg h2]
    refine ⟨rfl, ?_⟩
    intro i hi
    have hfit : start + evtfds.length ≤ r.bindings.length := by
      simpa [InterruptRouter.GetIrqCount] using h1
    exact getElem?_applyRange_inside r.bindings start evtfds hfit i hi

/-- Witness of C4: with one invalid target among a valid one the router is
unchanged; with valid targets line 1 is bound to 5 and line 2 is unbound. -/
theorem SetRange_atomic_witness :
    ((∃ err, (SetRange sampleLive sampleRouter 1 [5, 6]).1 = .error err) ∧
      (SetRange sampleLive sampleRouter 1 [5, 6]).2 = sampleRouter) ∧
    (SetRange sampleLive sampleRouter 1 [5, -1]).1 = .ok () ∧
    (SetRange sampleLive sampleRouter 1 [5, -1]).2.bindings[1 + 0]? = some (some 5) ∧
    (SetRange sampleLive sampleRouter 1 [5, -1]).2.bindings[1 + 1]? = some none :=
  ⟨(SetRange_atomic sampleLive sampleRouter 1 [5, 6]).1
      (Or.inr ⟨6, by decide, by decide, by decide⟩),
   ((SetRange_atomic sampleLive sampleRouter 1 [5, -1]).2 (by decide)).1,
   ((SetRange_atomic sampleLive sampleRouter 1 [5, -1]).2 (by decide)).2 0 (by decide),
   ((SetRange_atomic sampleLive sampleRouter 1 [5, -1]).2 (by decide)).2 1 (by decide)⟩

/-! ## Region indices and permission flags -/

/-- C5: the region indices are AFU = 0 and Signal Tap = 1; the permission
flags are 1, 2 and 4, each non-zero with a single bit set, pairwise disjoint;
every choice of (read, write, mmap) has a flags value below 8 from which each
permission is read back whatever the other two are, and every flags value
below 8 is the value of the permissions read from it. -/
theorem region_constants :
    DFL_PORT_REGION_INDEX_AFU = 0 ∧ DFL_PORT_REGION_INDEX_STP = 1 ∧
    DFL_PORT_REGION_READ = 1 ∧ DFL_PORT_REGION_WRITE = 2 ∧ DFL_PORT_REGION_MMAP = 4 ∧
    singleBit DFL_PORT_REGION_READ = true ∧ singleBit DFL_PORT_REGION_WRITE = true ∧
    singleBit DFL_PORT_REGION_MMAP = true ∧
    DFL_PORT_REGION_READ &&& DFL_PORT_REGION_WRITE = 0 ∧
    DFL_PORT_REGION_READ &&& DFL_PORT_REGION_MMAP = 0 ∧
    DFL_PORT_REGION_WRITE &&& DFL_PORT_REGION_MMAP = 0 ∧
    (∀ r w m : Bool, regionFlags r w m < 8 ∧
      hasFlag (regionFlags r w m) DFL_PORT_REGION_READ = r ∧
      hasFlag (regionFlags r w m) DFL_PORT_REGION_WRITE = w ∧
      hasFlag (regionFlags r w m) DFL_PORT_REGION_MMAP = m) ∧
    (∀ f : Nat, f < 8 →
      regionFlags (hasFlag f DFL_PORT_REGION_READ) (hasFlag f DFL_PORT_REGION_WRITE)
        (hasFlag f DFL_PORT_REGION_MMAP) = f) := by
  decide

/-! ## The CXL cache buffer requests -/

/-- C6: `DFL_ARRAY_MAX_SIZE` is 16 and `csr_array` is an array of that many
64-bit entries; the buffer map and unmap structures have the same members, at
offsets `argsz` 0, `flags` 4, `user_addr` 8, `length` 16, `csr_array` 24, and
their size is 24 + 16 * 8 = 152 bytes, under either ABI. -/
theorem cxl_buffer_layout (abi : ABI) :
    DFL_ARRAY_MAX_SIZE = 16 ∧
    dfl_cxl_cache_buffer_map.fields.getLast? = some ⟨"csr_array", .array .u64 16⟩ ∧
    (CType.array .u64 DFL_ARRAY_MAX_SIZE).size = 16 * 8 ∧
    dfl_cxl_cache_buffer_unmap.fields = dfl_cxl_cache_buffer_map.fields ∧
    (dfl_cxl_cache_buffer_map.fields.map Field.name).zip (dfl_cxl_cache_buffer_map.offsets abi) =
      [("argsz", 0), ("flags", 4), ("user_addr", 8), ("length", 16), ("csr_array", 24)] ∧
    (dfl_cxl_cache_buffer_unmap.fields.map Field.name).zip
        (dfl_cxl_cache_buffer_unmap.offsets abi) =
      [("argsz", 0), ("flags", 4), ("user_addr", 8), ("length", 16), ("csr_array", 24)] ∧
    dfl_cxl_cache_buffer_map.sizeof abi = 24 + DFL_ARRAY_MAX_SIZE * 8 ∧
    dfl_cxl_cache_buffer_unmap.sizeof abi = 24 + DFL_ARRAY_MAX_SIZE * 8 ∧
    dfl_cxl_cache_buffer_map.sizeof abi = 152 ∧
    dfl_cxl_cache_buffer_unmap.sizeof abi = 152 := by
  cases abi <;> decide

/-- C7 as stated fails: no member of `struct dfl_cxl_cache_buffer_map` carries
the NUMA node, so not every input of `MapBuffer` has a member. -/
theorem buffer_map_inputs_counterexample :
    ¬ ∀ i ∈ [MapBufferInput.user_addr, MapBufferInput.length, MapBufferInput.numa_node],
      ∃ f ∈ dfl_cxl_cache_buffer_map.fields, carriedInput f = some i := by
  decide

/-- C7 (amended): `struct dfl_cxl_cache_buffer_map` has exactly the members
`argsz`, `flags`, `user_addr`, `length` and `csr_array`; the inputs of
`MapBuffer` it carries are the user virtual address and the length, in two
distinct members, and no member carries a NUMA node. -/
theorem buffer_map_inputs :
    dfl_cxl_cache_buffer_map.fields.map Field.name =
      ["argsz", "flags", "user_addr", "length", "csr_array"] ∧
    dfl_cxl_cache_buffer_map.fields.filterMap carriedInput =
      [MapBufferInput.user_addr, MapBufferInput.length] ∧
    dfl_cxl_cache_buffer_map.offsetOf .abi64 "user_addr" = some 8 ∧
    dfl_cxl_cache_buffer_map.offsetOf .abi64 "length" = some 16 ∧
    dfl_cxl_cache_buffer_map.fields.all (fun f => carriedInput f != some .numa_node) = true := by
  decide

/-! ## Command identifiers -/

/-- C8 as stated fails: the command number of `DFL_CXL_CACHE_NUMA_BUFFER_UNMAP`
is not `DFL_CXL_CACHE_BASE + 1`. -/
theorem buffer_unmap_nr_counterexample :
    ¬ (DFL_CXL_CACHE_NUMA_BUFFER_UNMAP.type = DFL_FPGA_MAGIC ∧
      DFL_CXL_CACHE_NUMA_BUFFER_UNMAP.nr = DFL_CXL_CACHE_BASE + 1) := by
  decide

/-- C8 (amended): `DFL_CXL_CACHE_NUMA_BUFFER_UNMAP` has magic `DFL_FPGA_MAGIC`
(0xB6) and command number `DFL_CXL_CACHE_BASE + 2` (0xA2); the number
`DFL_CXL_CACHE_BASE + 1` (0xA1) belongs to `DFL_CXL_CACHE_NUMA_BUFFER_MAP`. -/
theorem buffer_unmap_nr :
    DFL_CXL_CACHE_NUMA_BUFFER_UNMAP.type = DFL_FPGA_MAGIC ∧ DFL_FPGA_MAGIC = 0xB6 ∧
    DFL_CXL_CACHE_NUMA_BUFFER_UNMAP.nr = DFL_CXL_CACHE_BASE + 2 ∧
    DFL_CXL_CACHE_NUMA_BUFFER_UNMAP.nr = 0xA2 ∧
    DFL_CXL_CACHE_NUMA_BUFFER_MAP.nr = DFL_CXL_CACHE_BASE + 1 ∧
    DFL_CXL_CACHE_NUMA_BUFFER_MAP.nr = 0xA1 := by
  decide

/-- C9: the header defines 21 command identifiers (2 common, 9 Port, 5 FME,
3 CXL cache, 2 PCI SVA), all with magic 0xB6 and a command number below 256;
the command numbers are pairwise distinct and so are the ioctl codes, and two
identifiers of the header encode to the same code only if they are the same
identifier, whatever direction and size the encoding is given. -/
theorem ioctl_codes_distinct :
    allIoctls.length = 21 ∧
    (allIoctls.filter fun c => decide (c.nr < DFL_PORT_BASE)).length = 2 ∧
    (allIoctls.filter fun c =>
      decide (DFL_PORT_BASE ≤ c.nr) && decide (c.nr < DFL_FME_BASE)).length = 9 ∧
    (allIoctls.filter fun c =>
      decide (DFL_FME_BASE ≤ c.nr) && decide (c.nr < DFL_CXL_CACHE_BASE)).length = 5 ∧
    (allIoctls.filter fun c =>
      decide (DFL_CXL_CACHE_BASE ≤ c.nr) && decide (c.nr < DFL_PCI_SVA_BASE)).length = 3 ∧
    (allIoctls.filter fun c => decide (DFL_PCI_SVA_BASE ≤ c.nr)).length = 2 ∧
    allIoctls.all (fun c => decide (c.type = 0xB6) && decide (c.nr < 256)) = true ∧
    (allIoctls.map Ioctl.nr).Nodup ∧
    (allIoctls.map Ioctl.code).Nodup ∧
    (∀ c₁ ∈ allIoctls, ∀ c₂ ∈ allIoctls, ∀ d₁ s₁ d₂ s₂ : Nat,
      Ioctl.code ⟨d₁, c₁.type, c₁.nr, s₁⟩ = Ioctl.code ⟨d₂, c₂.type, c₂.nr, s₂⟩ → c₁ = c₂) := by
  refine ⟨by decide, by decide, by decide, by decide, by decide, by decide, by decide,
    by decide, by decide, ?_⟩
  intro c₁ h₁ c₂ h₂ d₁ s₁ d₂ s₂ h
  apply nr_injective c₁ h₁ c₂ h₂
  have e₁ := code_mod_256 ⟨d₁, c₁.type, c₁.nr, s₁⟩ (nr_lt_256 c₁ h₁)
  have e₂ := code_mod_256 ⟨d₂, c₂.type, c₂.nr, s₂⟩ (nr_lt_256 c₂ h₂)
  rw [h] at e₁
  exact e₁.symm.trans e₂

/-- Witness of C9: the map and unmap commands of the CXL cache stay distinct
under the read-write encoding their documentation names. -/
theorem ioctl_codes_distinct_witness :
    Ioctl.code ⟨3, 0xB6, 0xA1, 152⟩ ≠ Ioctl.code ⟨3, 0xB6, 0xA2, 152⟩ :=
  fun h => absurd
    (ioctl_codes_distinct.2.2.2.2.2.2.2.2.2 DFL_CXL_CACHE_NUMA_BUFFER_MAP (by decide)
      DFL_CXL_CACHE_NUMA_BUFFER_UNMAP (by decide) 3 152 3 152 h)
    (by decide)

/-! ## Layout without padding -/

/-- C10: in every request structure, under either ABI, the members sit at the
running sum of the sizes of the members before them, every member sits at a
multiple of its natural alignment (4 for 32-bit, 8 for 64-bit members), the
size is the sum of the member sizes and a multiple of the largest natural
alignment; the sizes are 16, 32, 32, 16, 8, 24, 24, 152 and 152 bytes. -/
theorem layout_no_padding (abi : ABI) (s : Struct) (hs : s ∈ requestStructs) :
    s.offsets abi = s.packedOffsets ∧
    (∀ p ∈ s.fields.zip s.packedOffsets, p.2 % p.1.type.naturalAlign = 0) ∧
    (∀ f ∈ s.fields, f.type.naturalAlign = 4 ∨ f.type.naturalAlign = 8) ∧
    s.sizeof abi = s.packedSize ∧
    s.packedSize % s.naturalAlign = 0 ∧
    requestStructs.map (fun t => (t.tag, t.sizeof abi)) =
      [("dfl_fpga_port_info", 16), ("dfl_fpga_port_region_info", 32),
       ("dfl_fpga_port_dma_map", 32), ("dfl_fpga_port_dma_unmap", 16),
       ("dfl_fpga_irq_set", 8), ("dfl_fpga_fme_port_pr", 24),
       ("dfl_cxl_cache_region_info", 24), ("dfl_cxl_cache_buffer_map", 152),
       ("dfl_cxl_cache_buffer_unmap", 152)] := by
  revert s
  cases abi <;> decide

/-- Witness of C10 at `struct dfl_fpga_port_region_info` under the 32-bit ABI. -/
theorem layout_no_padding_witness :
    dfl_fpga_port_region_info.offsets .abi32 = [0, 4, 8, 12, 16, 24] ∧
    dfl_fpga_port_region_info.sizeof .abi32 = 32 :=
  ⟨(layout_no_padding .abi32 dfl_fpga_port_region_info (by decide)).1.trans (by decide),
   (layout_no_padding .abi32 dfl_fpga_port_region_info (by decide)).2.2.2.1.trans (by decide)⟩

end FpgaDfl
